import Mathlib

/-!
Shallow embedding of the collaborative code-editing session service
(server/src/database.py, server/src/websocket.py, server/src/routers).

Python dicts become association lists keyed by strings; UUID generation
and wall-clock timestamps become explicit parameters (`now : Nat`,
fresh-id strings); every mutating operation returns the updated store
together with whatever the Python method returns.
-/

namespace CollabSpec

/-- The `Language` enum of models.py. -/
inductive Language where
  | javascript
  | python
  | java
  | cpp
deriving DecidableEq, Repr

/-- `Language.value` of the Python `str`-enum. -/
def Language.value : Language → String
  | .javascript => "javascript"
  | .python => "python"
  | .java => "java"
  | .cpp => "cpp"

/-- JSON-style values, the payloads of websocket messages. -/
inductive JVal where
  | jnull
  | jbool (b : Bool)
  | jnum (n : Nat)
  | jstr (s : String)
  | jarr (elems : List JVal)
  | jobj (fields : List (String × JVal))

/-- Dictionary lookup on the fields of an object literal. -/
def fieldLookup : List (String × JVal) → String → Option JVal
  | [], _ => none
  | (k', v) :: rest, k => if k' = k then some v else fieldLookup rest k

/-- `obj.get(k)`: the field `k` of a JSON object, `none` otherwise. -/
def JVal.getField : JVal → String → Option JVal
  | .jobj fields, k => fieldLookup fields k
  | _, _ => none

/-- The field `k` when it is present with a string value. -/
def JVal.getStr (j : JVal) (k : String) : Option String :=
  match j.getField k with
  | some (.jstr s) => some s
  | _ => none

/-- Association-list lookup, the model of `d.get(k)` / `k in d`. -/
def lookupKey {β : Type} : List (String × β) → String → Option β
  | [], _ => none
  | (k', v) :: rest, k => if k' = k then some v else lookupKey rest k

/-- Association-list update, the model of `d[k] = v`. -/
def setKey {β : Type} : List (String × β) → String → β → List (String × β)
  | [], k, v => [(k, v)]
  | (k', v') :: rest, k, v =>
      if k' = k then (k, v) :: rest else (k', v') :: setKey rest k v

/-- Association-list deletion, the model of `del d[k]` / `d.pop(k, None)`. -/
def eraseKey {β : Type} : List (String × β) → String → List (String × β)
  | [], _ => []
  | (k', v) :: rest, k =>
      if k' = k then eraseKey rest k else (k', v) :: eraseKey rest k

/-- `models.Participant`. -/
structure Participant where
  userId : String
  name : String
  joinedAt : Nat
  cursorPosition : Option JVal

/-- `models.HistoryEntry`. -/
structure HistoryEntry where
  timestamp : Nat
  userId : String
  changeType : String
  description : String
  codeSnapshot : Option String

/-- A code snapshot record as stored by `MockDatabase.save_code`. -/
structure Snapshot where
  snapshotId : String
  code : String
  language : String
  savedAt : Nat
  userId : String

/-- The per-session dict stored in `MockDatabase.sessions`.  The
`language` slot holds the language's string value (the Python dict can
hold an enum member or, after a websocket language-change, a raw
client-supplied string; both are represented here by the string). -/
structure SessionData where
  sessionId : String
  title : Option String
  language : String
  createdAt : Nat
  expiresAt : Nat
  activeParticipants : Nat
  code : String

/-- The dict returned by `MockDatabase.get_code`. -/
structure CodeInfo where
  sessionId : String
  code : String
  language : String
  lastModified : Nat

/-- The dict returned by `MockDatabase.save_code`. -/
structure SaveResult where
  sessionId : String
  snapshotId : String
  savedAt : Nat

/-- `database.MockDatabase`: four dicts keyed by session id. -/
structure MockDatabase where
  sessions : List (String × SessionData)
  code_snapshots : List (String × List Snapshot)
  participants : List (String × List Participant)
  history : List (String × List HistoryEntry)

/-- A freshly constructed `MockDatabase()`. -/
def MockDatabase.empty : MockDatabase := ⟨[], [], [], []⟩

/-- `MockDatabase.create_session`; the generated uuid and the current
time are passed in as `session_id` and `now`. -/
def MockDatabase.create_session (db : MockDatabase) (language : Language)
    (title : Option String) (expires_in_hours : Nat) (session_id : String)
    (now : Nat) : MockDatabase × SessionData :=
  let session_data : SessionData :=
    { sessionId := session_id
      title := title
      language := language.value
      createdAt := now
      expiresAt := now + expires_in_hours * 3600
      activeParticipants := 0
      code := "// Write your " ++ language.value ++ " code here\n" }
  ({ db with
      sessions := setKey db.sessions session_id session_data
      code_snapshots := setKey db.code_snapshots session_id []
      participants := setKey db.participants session_id []
      history := setKey db.history session_id [] },
   session_data)

/-- `MockDatabase.get_session` (the derived `url` field is dropped). -/
def MockDatabase.get_session (db : MockDatabase) (session_id : String) :
    Option SessionData :=
  lookupKey db.sessions session_id

/-- `MockDatabase.update_session`: each optional argument overwrites the
matching slot when present, including the `active_participants`
override. -/
def MockDatabase.update_session (db : MockDatabase) (session_id : String)
    (language : Option String) (title : Option String)
    (active_participants : Option Nat) : MockDatabase × Option SessionData :=
  match lookupKey db.sessions session_id with
  | none => (db, none)
  | some sd =>
      let sd' :=
        { sd with
            language := language.getD sd.language
            title := match title with | some t => some t | none => sd.title
            activeParticipants := active_participants.getD sd.activeParticipants }
      ({ db with sessions := setKey db.sessions session_id sd' }, some sd')

/-- `MockDatabase.delete_session`. -/
def MockDatabase.delete_session (db : MockDatabase) (session_id : String) :
    MockDatabase × Bool :=
  match lookupKey db.sessions session_id with
  | none => (db, false)
  | some _ =>
      ({ sessions := eraseKey db.sessions session_id
         code_snapshots := eraseKey db.code_snapshots session_id
         participants := eraseKey db.participants session_id
         history := eraseKey db.history session_id }, true)

/-- `MockDatabase.get_code`: the reported `lastModified` is the
session's `createdAt` slot. -/
def MockDatabase.get_code (db : MockDatabase) (session_id : String) :
    Option CodeInfo :=
  match lookupKey db.sessions session_id with
  | none => none
  | some sd =>
      some { sessionId := session_id
             code := sd.code
             language := sd.language
             lastModified := sd.createdAt }

/-- `MockDatabase.add_history_entry`; current time passed as `now`. -/
def MockDatabase.add_history_entry (db : MockDatabase) (session_id : String)
    (user_id : String) (change_type : String) (description : String)
    (code_snapshot : Option String) (now : Nat) : MockDatabase :=
  match lookupKey db.sessions session_id with
  | none => db
  | some _ =>
      let entry : HistoryEntry :=
        { timestamp := now
          userId := user_id
          changeType := change_type
          description := description
          codeSnapshot := code_snapshot }
      { db with
          history :=
            setKey db.history session_id
              (((lookupKey db.history session_id).getD []) ++ [entry]) }

/-- `MockDatabase.save_code`; the generated snapshot uuid and the
current time are passed in.  Appends a snapshot, overwrites the
session's `code` slot, and records a "snapshot" history entry; the
session's `language` slot is left untouched. -/
def MockDatabase.save_code (db : MockDatabase) (session_id : String)
    (code : String) (language : String) (user_id : String)
    (snapshot_id : String) (now : Nat) : MockDatabase × Option SaveResult :=
  match lookupKey db.sessions session_id with
  | none => (db, none)
  | some sd =>
      let snapshot : Snapshot :=
        { snapshotId := snapshot_id
          code := code
          language := language
          savedAt := now
          userId := user_id }
      let db1 :=
        { db with
            code_snapshots :=
              setKey db.code_snapshots session_id
                (((lookupKey db.code_snapshots session_id).getD []) ++ [snapshot])
            sessions := setKey db.sessions session_id { sd with code := code } }
      let db2 := db1.add_history_entry session_id user_id "snapshot"
        "Code snapshot saved" (some code) now
      (db2, some { sessionId := session_id, snapshotId := snapshot_id, savedAt := now })

/-- `MockDatabase.add_participant`: drops any roster entry with the same
user id, appends the new one, and recomputes `activeParticipants` from
the roster length. -/
def MockDatabase.add_participant (db : MockDatabase) (session_id : String)
    (user_id : String) (name : String) (now : Nat) : MockDatabase × Bool :=
  match lookupKey db.sessions session_id with
  | none => (db, false)
  | some sd =>
      let ps :=
        (((lookupKey db.participants session_id).getD []).filter
          (fun p => p.userId != user_id)) ++
        [{ userId := user_id, name := name, joinedAt := now, cursorPosition := none }]
      ({ db with
          participants := setKey db.participants session_id ps
          sessions := setKey db.sessions session_id
            { sd with activeParticipants := ps.length } }, true)

/-- `MockDatabase.remove_participant`: filters the roster and recomputes
`activeParticipants` from the new length. -/
def MockDatabase.remove_participant (db : MockDatabase) (session_id : String)
    (user_id : String) : MockDatabase × Bool :=
  match lookupKey db.sessions session_id with
  | none => (db, false)
  | some sd =>
      let ps :=
        ((lookupKey db.participants session_id).getD []).filter
          (fun p => p.userId != user_id)
      ({ db with
          participants := setKey db.participants session_id ps
          sessions := setKey db.sessions session_id
            { sd with activeParticipants := ps.length } }, true)

/-- `MockDatabase.get_participants`. -/
def MockDatabase.get_participants (db : MockDatabase) (session_id : String) :
    Option (List Participant) :=
  match lookupKey db.sessions session_id with
  | none => none
  | some _ => some ((lookupKey db.participants session_id).getD [])

/-- `MockDatabase.get_history`: Python's `history[-limit:] if
len(history) > limit else history`; the inner `limit = 0` case mirrors
`history[-0:]` returning the whole list. -/
def MockDatabase.get_history (db : MockDatabase) (session_id : String)
    (limit : Nat) : Option (List HistoryEntry) :=
  match lookupKey db.sessions session_id with
  | none => none
  | some _ =>
      let h := (lookupKey db.history session_id).getD []
      some (if h.length > limit then
              (if limit = 0 then h else h.drop (h.length - limit))
            else h)

/-- Opaque handle for one live websocket connection. -/
abbrev ConnId := Nat

/-- The websocket module's mutable state: the shared `MockDatabase`
instance together with the `active_connections` dict mapping session id
to its set of live connections (modelled as a duplicate-free list). -/
structure GState where
  db : MockDatabase
  active_connections : List (String × List ConnId)

/-- Registering a connection: create the per-session set on first use,
then add the connection. -/
def connAdd (l : List (String × List ConnId)) (sid : String) (c : ConnId) :
    List (String × List ConnId) :=
  let cur := (lookupKey l sid).getD []
  setKey l sid (if c ∈ cur then cur else cur ++ [c])

/-- The disconnect-side deregistration pattern of websocket.py:
`discard` the connection and delete the per-session entry when the set
becomes empty; a session id with no entry is left untouched. -/
def connDiscard (l : List (String × List ConnId)) (sid : String) (c : ConnId) :
    List (String × List ConnId) :=
  match lookupKey l sid with
  | none => l
  | some cs =>
      let cs' := cs.filter (fun x => x != c)
      if cs' = [] then eraseKey l sid else setKey l sid cs'

/-- `ConnectionManager.broadcast`: send to every connection of the
session except `exclude`; `fails` says which sends raise.  Failed
targets are collected and discarded from the (retained) per-session
entry after the fan-out pass; the delivered pairs are returned. -/
def GState.broadcast (g : GState) (sid : String) (message : JVal)
    (exclude : Option ConnId) (fails : ConnId → Bool) :
    GState × List (ConnId × JVal) :=
  match lookupKey g.active_connections sid with
  | none => (g, [])
  | some conns =>
      let targets := conns.filter (fun conn => !(some conn == exclude))
      let delivered := targets.filter (fun conn => !(fails conn))
      let disconnected := targets.filter fails
      let remaining := conns.filter (fun conn => !(disconnected.contains conn))
      ({ g with active_connections := setKey g.active_connections sid remaining },
       delivered.map (fun conn => (conn, message)))

/-- Python truthiness of the endpoint's `user_id` variable
(`None` and `""` are falsy). -/
def truthyId : Option String → Bool
  | none => false
  | some s => s != ""

/-- Python's `user_id or fresh` fallback. -/
def pyOrStr (u : Option String) (fresh : String) : String :=
  match u with
  | some s => if s = "" then fresh else s
  | none => fresh

/-- The endpoint's per-connection local variables (`user_id`, `name`). -/
structure ConnState where
  user_id : Option String
  name : String

/-- The locals as initialised before the receive loop. -/
def ConnState.init : ConnState := { user_id := none, name := "Anonymous User" }

/-- The connect phase of `websocket_endpoint` (lines 188-223): verify
the session (else the caller closes with 1008 — modelled by `none`),
register the connection, and build the `welcome` message sent to the
new connection; no participant is added. -/
def ws_connect (g : GState) (sid : String) (c : ConnId) (now : Nat) :
    Option (GState × JVal) :=
  match g.db.get_session sid with
  | none => none
  | some session =>
      let g1 := { g with active_connections := connAdd g.active_connections sid c }
      let code_data := g1.db.get_code sid
      let participants := g1.db.get_participants sid
      let welcome := JVal.jobj
        [("type", .jstr "welcome"), ("timestamp", .jnum now),
         ("data", .jobj
           [("sessionId", .jstr sid),
            ("currentCode", .jstr (match code_data with
              | some cd => cd.code
              | none => "")),
            ("language", .jstr session.language),
            ("participants", .jarr ((participants.getD []).map
              (fun p => JVal.jobj
                [("userId", .jstr p.userId), ("name", .jstr p.name)])))])]
      some (g1, welcome)

/-- `ConnectionManager.handle_message`: dispatch on the message type;
returns the new state, the messages sent back to the sender, and the
pairs delivered by broadcast.  Unrecognized types do nothing. -/
def handle_message (g : GState) (sid : String) (c : ConnId) (message : JVal)
    (user_id : String) (snapshot_id : String) (now : Nat)
    (fails : ConnId → Bool) : GState × List JVal × List (ConnId × JVal) :=
  let msg_type := message.getStr "type"
  if msg_type = some "ping" then
    (g, [JVal.jobj [("type", .jstr "pong"), ("timestamp", .jnum now)]], [])
  else if msg_type = some "code-update" then
    let broadcast_msg := JVal.jobj
      [("type", .jstr "code-update"), ("timestamp", .jnum now),
       ("userId", .jstr user_id),
       ("data", (message.getField "data").getD (.jobj []))]
    let g1 :=
      match message.getField "data" with
      | some d =>
          match d.getStr "code" with
          | some code =>
              match g.db.get_session sid with
              | some session =>
                  { g with db := (g.db.save_code sid code session.language
                      user_id snapshot_id now).1 }
              | none => g
          | none => g
      | none => g
    let r := g1.broadcast sid broadcast_msg (some c) fails
    (r.1, [], r.2)
  else if msg_type = some "cursor-position" then
    let broadcast_msg := JVal.jobj
      [("type", .jstr "cursor-position"), ("timestamp", .jnum now),
       ("userId", .jstr user_id),
       ("data", (message.getField "data").getD (.jobj []))]
    let r := g.broadcast sid broadcast_msg (some c) fails
    (r.1, [], r.2)
  else if msg_type = some "language-change" then
    let new_language :=
      (((message.getField "data").getD (.jobj [])).getStr "language").getD ""
    if new_language = "" then (g, [], [])
    else
      let db1 := (g.db.update_session sid (some new_language) none none).1
      let broadcast_msg := JVal.jobj
        [("type", .jstr "language-changed"), ("timestamp", .jnum now),
         ("userId", .jstr user_id),
         ("data", .jobj [("language", .jstr new_language)])]
      let db2 := db1.add_history_entry sid user_id "language-change"
        ("Changed language to " ++ new_language) none now
      let r := GState.broadcast { g with db := db2 } sid broadcast_msg (some c) fails
      (r.1, [], r.2)
  else (g, [], [])

/-- The common cleanup of the endpoint's two `except` branches:
deregister the connection (dropping an emptied per-session entry) and,
only when `user_id` is truthy (the connection had joined), remove the
participant from the database.  No message is broadcast. -/
def ws_cleanup (g : GState) (sid : String) (c : ConnId)
    (user_id : Option String) : GState :=
  { db := if truthyId user_id then
            (g.db.remove_participant sid (user_id.getD "")).1
          else g.db
    active_connections := connDiscard g.active_connections sid c }

/-- Outcome of processing one inbound frame in the receive loop. -/
inductive ReceiveResult where
  | next (g : GState) (cs : ConnState) (selfMsgs : List JVal)
      (delivered : List (ConnId × JVal))
  | closed (g : GState)

/-- One iteration of the endpoint's receive loop.  `raw = none` models
text that `json.loads` cannot parse: the raised error escapes to the
generic `except` branch, which runs the disconnect cleanup and ends the
loop.  A `join` message (re)binds the locals, adds the participant and
broadcasts `user-joined` with the connection count; anything else goes
to `handle_message` with `user_id or fresh` as acting user. -/
def ws_receive (g : GState) (sid : String) (c : ConnId) (cs : ConnState)
    (raw : Option JVal) (freshJoin freshMsg snapshot_id : String) (now : Nat)
    (fails : ConnId → Bool) : ReceiveResult :=
  match raw with
  | none => .closed (ws_cleanup g sid c cs.user_id)
  | some message =>
      if message.getStr "type" = some "join" then
        let uid := (message.getStr "userId").getD freshJoin
        let nm :=
          ((((message.getField "data").getD (.jobj [])).getStr "name").getD
            "Anonymous User")
        let g1 := { g with db := (g.db.add_participant sid uid nm now).1 }
        let user_joined_msg := JVal.jobj
          [("type", .jstr "user-joined"), ("timestamp", .jnum now),
           ("userId", .jstr uid),
           ("data", .jobj
             [("name", .jstr nm),
              ("participantCount",
                .jnum ((lookupKey g1.active_connections sid).getD []).length)])]
        let r := g1.broadcast sid user_joined_msg (some c) fails
        .next r.1 { user_id := some uid, name := nm } [] r.2
      else
        let r := handle_message g sid c message (pyOrStr cs.user_id freshMsg)
          snapshot_id now fails
        .next r.1 cs r.2.1 r.2.2

/-- The endpoint's `except WebSocketDisconnect` branch: run the cleanup;
the branch sends no message to anyone, recorded by the empty delivery
list. -/
def ws_disconnect (g : GState) (sid : String) (c : ConnId) (cs : ConnState) :
    GState × List (ConnId × JVal) :=
  (ws_cleanup g sid c cs.user_id, [])

/-- The store operations named by the roster invariant. -/
inductive StoreOp where
  | addP (sid uid name : String) (now : Nat)
  | removeP (sid uid : String)
  | updateS (sid : String) (language : Option String) (title : Option String)
      (active_participants : Option Nat)
  | saveC (sid code language uid snapId : String) (now : Nat)

/-- Interpretation of a store operation on the database. -/
def applyOp (db : MockDatabase) : StoreOp → MockDatabase
  | .addP sid uid name now => (db.add_participant sid uid name now).1
  | .removeP sid uid => (db.remove_participant sid uid).1
  | .updateS sid l t a => (db.update_session sid l t a).1
  | .saveC sid code lang uid snapId now =>
      (db.save_code sid code lang uid snapId now).1

/-- A sequence of store operations, applied left to right. -/
def applyOps (db : MockDatabase) (ops : List StoreOp) : MockDatabase :=
  ops.foldl applyOp db

/-- `activeParticipants` agrees with the roster size, for every session. -/
def rosterInv (db : MockDatabase) : Prop :=
  ∀ sid sd, lookupKey db.sessions sid = some sd →
    sd.activeParticipants = ((lookupKey db.participants sid).getD []).length

/-- An operation that does not use `update_session`'s
`active_participants` override. -/
def noOverride : StoreOp → Prop
  | .updateS _ _ _ a => a = none
  | _ => True

/-- Arguments of one `save_code` call (for iterating saves). -/
structure SaveArgs where
  code : String
  language : String
  userId : String
  snapId : String
  now : Nat

/-- A run of consecutive `save_code` calls against one session. -/
def applySaves (db : MockDatabase) (sid : String) (saves : List SaveArgs) :
    MockDatabase :=
  saves.foldl
    (fun d a => (d.save_code sid a.code a.language a.userId a.snapId a.now).1) db

/-- The state reached by a receive-loop iteration. -/
def ReceiveResult.state : ReceiveResult → GState
  | .next g _ _ _ => g
  | .closed g => g

/-- The locals after a receive-loop iteration (unchanged on close). -/
def ReceiveResult.locals : ReceiveResult → ConnState
  | .next _ cs _ _ => cs
  | .closed _ => ConnState.init

/-- The messages a receive-loop iteration sent back to the sender. -/
def ReceiveResult.selfMsgs : ReceiveResult → List JVal
  | .next _ _ s _ => s
  | .closed _ => []

/-- The (connection, message) pairs a receive-loop iteration delivered
to other connections. -/
def ReceiveResult.delivered : ReceiveResult → List (ConnId × JVal)
  | .next _ _ _ d => d
  | .closed _ => []

/-- Whether the receive loop keeps running after the iteration. -/
def ReceiveResult.isNext : ReceiveResult → Bool
  | .next _ _ _ _ => true
  | .closed _ => false

/-- A send-failure pattern where every send succeeds. -/
def noFail : ConnId → Bool := fun _ => false

/-- A send-failure pattern where every send raises. -/
def allFail : ConnId → Bool := fun _ => true

/- Association-list laws. -/

theorem lookupKey_setKey_self {β : Type} (l : List (String × β)) (k : String)
    (v : β) : lookupKey (setKey l k v) k = some v := by
  induction l with
  | nil => simp [setKey, lookupKey]
  | cons p rest ih =>
      obtain ⟨k', v'⟩ := p
      by_cases h : k' = k
      · simp [setKey, h, lookupKey]
      · simp [setKey, h, lookupKey, ih]

theorem lookupKey_setKey_ne {β : Type} (l : List (String × β)) (k k₂ : String)
    (v : β) (h : k₂ ≠ k) : lookupKey (setKey l k v) k₂ = lookupKey l k₂ := by
  induction l with
  | nil => simp [setKey, lookupKey, Ne.symm h]
  | cons p rest ih =>
      obtain ⟨k', v'⟩ := p
      by_cases hk : k' = k
      · subst hk
        simp [setKey, lookupKey, Ne.symm h]
      · simp [setKey, hk, lookupKey, ih]

theorem lookupKey_eraseKey_self {β : Type} (l : List (String × β))
    (k : String) : lookupKey (eraseKey l k) k = none := by
  induction l with
  | nil => simp [eraseKey, lookupKey]
  | cons p rest ih =>
      obtain ⟨k', v'⟩ := p
      by_cases h : k' = k
      · simp [eraseKey, h, ih]
      · simp [eraseKey, h, lookupKey, ih]

theorem lookupKey_eraseKey_ne {β : Type} (l : List (String × β))
    (k k₂ : String) (h : k₂ ≠ k) :
    lookupKey (eraseKey l k) k₂ = lookupKey l k₂ := by
  induction l with
  | nil => simp [eraseKey, lookupKey]
  | cons p rest ih =>
      obtain ⟨k', v'⟩ := p
      by_cases hk : k' = k
      · subst hk
        simp [eraseKey, lookupKey, Ne.symm h, ih]
      · simp [eraseKey, hk, lookupKey, ih]

/- Characterizations of the store operations. -/

theorem add_history_entry_sessions (db : MockDatabase) (sid uid ct d : String)
    (cs : Option String) (now : Nat) :
    (db.add_history_entry sid uid ct d cs now).sessions = db.sessions := by
  unfold MockDatabase.add_history_entry
  split <;> rfl

theorem add_history_entry_participants (db : MockDatabase)
    (sid uid ct d : String) (cs : Option String) (now : Nat) :
    (db.add_history_entry sid uid ct d cs now).participants =
      db.participants := by
  unfold MockDatabase.add_history_entry
  split <;> rfl

theorem save_code_fst (db : MockDatabase) (sid code lang uid snap : String)
    (now : Nat) (sd : SessionData) (h : lookupKey db.sessions sid = some sd) :
    (db.save_code sid code lang uid snap now).1 =
      { sessions := setKey db.sessions sid { sd with code := code }
        code_snapshots := setKey db.code_snapshots sid
          (((lookupKey db.code_snapshots sid).getD []) ++
            [{ snapshotId := snap, code := code, language := lang,
               savedAt := now, userId := uid }])
        participants := db.participants
        history := setKey db.history sid
          (((lookupKey db.history sid).getD []) ++
            [{ timestamp := now, userId := uid, changeType := "snapshot",
               description := "Code snapshot saved",
               codeSnapshot := some code }]) } := by
  simp [MockDatabase.save_code, MockDatabase.add_history_entry, h,
    lookupKey_setKey_self]

theorem broadcast_fst_lookup (g : GState) (sid : String) (msg : JVal)
    (exclude : Option ConnId) (fails : ConnId → Bool) (conns : List ConnId)
    (h : lookupKey g.active_connections sid = some conns) :
    lookupKey (g.broadcast sid msg exclude fails).1.active_connections sid =
      some (conns.filter (fun x => (some x == exclude) || !(fails x))) := by
  simp only [GState.broadcast, h]
  rw [lookupKey_setKey_self]
  congr 1
  apply List.filter_congr
  intro x hx
  rcases hf : fails x <;> rcases he : (some x == exclude) <;>
    simp [List.contains, List.elem_iff, List.mem_filter, hf, he, hx]

theorem broadcast_delivered_eq (g : GState) (sid : String) (msg : JVal)
    (exclude : Option ConnId) (fails : ConnId → Bool) (conns : List ConnId)
    (h : lookupKey g.active_connections sid = some conns) :
    (g.broadcast sid msg exclude fails).2 =
      ((conns.filter (fun x => !(some x == exclude))).filter
        (fun x => !(fails x))).map (fun x => (x, msg)) := by
  simp only [GState.broadcast, h]

theorem broadcast_db (g : GState) (sid : String) (msg : JVal)
    (exclude : Option ConnId) (fails : ConnId → Bool) :
    (g.broadcast sid msg exclude fails).1.db = g.db := by
  unfold GState.broadcast
  split <;> rfl

theorem connDiscard_lookup (l : List (String × List ConnId)) (sid : String)
    (c : ConnId) (l' : List ConnId)
    (h : lookupKey (connDiscard l sid c) sid = some l') :
    l' ≠ [] ∧ c ∉ l' := by
  cases hl : lookupKey l sid with
  | none =>
      simp [connDiscard, hl] at h
  | some cs =>
      simp only [connDiscard, hl] at h
      by_cases he : cs.filter (fun x => x != c) = []
      · rw [if_pos he, lookupKey_eraseKey_self] at h
        simp at h
      · rw [if_neg he, lookupKey_setKey_self] at h
        injection h with h2
        subst h2
        refine ⟨he, fun hc => ?_⟩
        have := List.mem_filter.mp hc
        simp at this

/- Roster-invariant preservation, one lemma per store operation. -/

theorem rosterInv_add_participant (db : MockDatabase) (sid uid nm : String)
    (now : Nat) (h : rosterInv db) :
    rosterInv (db.add_participant sid uid nm now).1 := by
  intro sid₀ sd₀ h₀
  cases hl : lookupKey db.sessions sid with
  | none =>
      simp only [MockDatabase.add_participant, hl] at h₀ ⊢
      exact h sid₀ sd₀ h₀
  | some sd =>
      simp only [MockDatabase.add_participant, hl] at h₀ ⊢
      by_cases hq : sid₀ = sid
      · subst hq
        rw [lookupKey_setKey_self] at h₀
        injection h₀ with h₀
        rw [lookupKey_setKey_self, ← h₀]
        simp
      · rw [lookupKey_setKey_ne _ _ _ _ hq] at h₀
        rw [lookupKey_setKey_ne _ _ _ _ hq]
        exact h sid₀ sd₀ h₀

theorem rosterInv_remove_participant (db : MockDatabase) (sid uid : String)
    (h : rosterInv db) : rosterInv (db.remove_participant sid uid).1 := by
  intro sid₀ sd₀ h₀
  cases hl : lookupKey db.sessions sid with
  | none =>
      simp only [MockDatabase.remove_participant, hl] at h₀ ⊢
      exact h sid₀ sd₀ h₀
  | some sd =>
      simp only [MockDatabase.remove_participant, hl] at h₀ ⊢
      by_cases hq : sid₀ = sid
      · subst hq
        rw [lookupKey_setKey_self] at h₀
        injection h₀ with h₀
        rw [lookupKey_setKey_self, ← h₀]
        simp
      · rw [lookupKey_setKey_ne _ _ _ _ hq] at h₀
        rw [lookupKey_setKey_ne _ _ _ _ hq]
        exact h sid₀ sd₀ h₀

theorem rosterInv_update_session (db : MockDatabase) (sid : String)
    (lang : Option String) (title : Option String) (h : rosterInv db) :
    rosterInv (db.update_session sid lang title none).1 := by
  intro sid₀ sd₀ h₀
  cases hl : lookupKey db.sessions sid with
  | none =>
      simp only [MockDatabase.update_session, hl] at h₀ ⊢
      exact h sid₀ sd₀ h₀
  | some sd =>
      simp only [MockDatabase.update_session, hl] at h₀ ⊢
      by_cases hq : sid₀ = sid
      · subst hq
        rw [lookupKey_setKey_self] at h₀
        injection h₀ with h₀
        rw [← h₀]
        simpa using h sid₀ sd hl
      · rw [lookupKey_setKey_ne _ _ _ _ hq] at h₀
        exact h sid₀ sd₀ h₀

theorem rosterInv_save_code (db : MockDatabase) (sid code lang uid snap : String)
    (now : Nat) (h : rosterInv db) :
    rosterInv (db.save_code sid code lang uid snap now).1 := by
  intro sid₀ sd₀ h₀
  cases hl : lookupKey db.sessions sid with
  | none =>
      simp only [MockDatabase.save_code, hl] at h₀ ⊢
      exact h sid₀ sd₀ h₀
  | some sd =>
      rw [save_code_fst db sid code lang uid snap now sd hl] at h₀ ⊢
      simp only at h₀ ⊢
      by_cases hq : sid₀ = sid
      · subst hq
        rw [lookupKey_setKey_self] at h₀
        injection h₀ with h₀
        rw [← h₀]
        simpa using h sid₀ sd hl
      · rw [lookupKey_setKey_ne _ _ _ _ hq] at h₀
        exact h sid₀ sd₀ h₀

theorem rosterInv_applyOp (db : MockDatabase) (op : StoreOp)
    (hop : noOverride op) (h : rosterInv db) : rosterInv (applyOp db op) := by
  cases op with
  | addP sid uid nm now => exact rosterInv_add_participant db sid uid nm now h
  | removeP sid uid => exact rosterInv_remove_participant db sid uid h
  | updateS sid l t a =>
      cases hop
      exact rosterInv_update_session db sid l t h
  | saveC sid code lang uid snap now =>
      exact rosterInv_save_code db sid code lang uid snap now h

theorem get_history_eq (db : MockDatabase) (sid : String) (limit : Nat)
    (sd : SessionData) (h : lookupKey db.sessions sid = some sd)
    (hl : 1 ≤ limit) :
    db.get_history sid limit =
      some (((lookupKey db.history sid).getD []).drop
        (((lookupKey db.history sid).getD []).length - limit)) := by
  simp only [MockDatabase.get_history, h]
  by_cases hgt : ((lookupKey db.history sid).getD []).length > limit
  · rw [if_pos hgt, if_neg (by omega)]
  · rw [if_neg hgt]
    congr 1
    rw [Nat.sub_eq_zero_of_le (by omega), List.drop_zero]

theorem applySaves_lookup (db : MockDatabase) (sid : String)
    (saves : List SaveArgs) (sd : SessionData)
    (h : lookupKey db.sessions sid = some sd) :
    ∃ sd₂, lookupKey (applySaves db sid saves).sessions sid = some sd₂ ∧
      sd₂.createdAt = sd.createdAt := by
  induction saves generalizing db sd with
  | nil => exact ⟨sd, h, rfl⟩
  | cons a rest ih =>
      have h1 : lookupKey
          ((db.save_code sid a.code a.language a.userId a.snapId a.now).1).sessions
          sid = some { sd with code := a.code } := by
        rw [save_code_fst db sid a.code a.language a.userId a.snapId a.now sd h]
        exact lookupKey_setKey_self _ _ _
      obtain ⟨sd₂, h2, h3⟩ :=
        ih (db.save_code sid a.code a.language a.userId a.snapId a.now).1
          { sd with code := a.code } h1
      exact ⟨sd₂, h2, h3⟩

/- Shared concrete scenario: one session "s" created with language
python at time 0, then connections 0 and 1 attached. -/

/-- A store holding one python session with id "s". -/
def sampleDb : MockDatabase :=
  (MockDatabase.empty.create_session .python none 24 "s" 0).1

/-- Initial websocket-module state over `sampleDb`. -/
def sampleG0 : GState := { db := sampleDb, active_connections := [] }

/-- State after connection 0 attaches to "s". -/
def sampleG1 : GState := ((ws_connect sampleG0 "s" 0 1).map Prod.fst).getD sampleG0

/-- State after connection 1 also attaches to "s". -/
def sampleG2 : GState := ((ws_connect sampleG1 "s" 1 2).map Prod.fst).getD sampleG1

/-- The welcome message sent to connection 0. -/
def sampleWelcome : JVal := ((ws_connect sampleG0 "s" 0 1).map Prod.snd).getD .jnull

/-- The join message of the spec scenario. -/
def joinMsgSample : JVal := .jobj
  [("type", .jstr "join"), ("userId", .jstr "u1"),
   ("data", .jobj [("name", .jstr "Alice")])]

/-- Connection 0 sends the join message in state `sampleG2`. -/
def joinStep : ReceiveResult :=
  ws_receive sampleG2 "s" 0 ConnState.init (some joinMsgSample) "f1" "f2" "sn1"
    3 noFail

/-- State after the join of connection 0. -/
def joinedG : GState := joinStep.state

/-- A store with two history entries on session "s". -/
def histDb : MockDatabase :=
  (sampleDb.add_history_entry "s" "u" "t1" "d1" none 1).add_history_entry
    "s" "u" "t2" "d2" none 2

/-- C4 counterexample: starting from a store holding one fresh session,
a single `update_session` call that passes the `active_participants`
override sets the field to 5 while the roster is empty, so the claimed
invariant fails after this sequence of store operations. -/
theorem update_override_breaks_roster_cex :
    ¬ rosterInv (sampleDb.update_session "s" none none (some 5)).1 := by
  intro h
  have h5 := h "s"
    { sessionId := "s", title := none, language := "python", createdAt := 0,
      expiresAt := 86400, activeParticipants := 5,
      code := "// Write your python code here\n" } (by rfl)
  exact absurd h5 (by decide)

/-- C4 (amended): after every sequence of participant add/remove,
session update and code save operations in which `update_session` is
never passed the `active_participants` override, every session's
`activeParticipants` field equals its roster length. -/
theorem roster_count_invariant (db : MockDatabase) (ops : List StoreOp)
    (h : rosterInv db) (hops : ∀ op ∈ ops, noOverride op) :
    rosterInv (applyOps db ops) := by
  induction ops generalizing db with
  | nil => exact h
  | cons op rest ih =>
      exact ih (applyOp db op) (rosterInv_applyOp db op (hops op (by simp)) h)
        (fun o ho => hops o (by simp [ho]))

/-- C4 witness: the invariant theorem applied to the empty store and a
concrete participant-add operation. -/
theorem roster_count_invariant_witness :
    rosterInv (applyOps MockDatabase.empty [StoreOp.addP "s" "u" "n" 0]) :=
  roster_count_invariant MockDatabase.empty [StoreOp.addP "s" "u" "n" 0]
    (fun sid sd hsd => by simp [lookupKey] at hsd)
    (fun op hop => by
      rw [List.mem_singleton] at hop
      subst hop
      trivial)

/-- C6 counterexample: saving code with language "javascript" into a
session whose current language is "python" and then reading the code
returns language "python", not the saved language, so the round-trip
fails for that language value. -/
theorem save_language_not_returned_cex :
    (((sampleDb.save_code "s" "xx" "javascript" "u" "sn" 9).1.get_code
        "s").map CodeInfo.language = some "python") ∧
    ("python" ≠ "javascript") :=
  ⟨rfl, by decide⟩

/-- C6 (amended): saving code and immediately reading it back returns
exactly the saved code text, with the session's current language; the
returned language equals the language passed to the save exactly when
the caller passed the session's current language (`save_code` never
updates the session's language slot). -/
theorem save_get_code_roundtrip (db : MockDatabase)
    (sid code lang uid snap : String) (now : Nat) (sd : SessionData)
    (h : lookupKey db.sessions sid = some sd) :
    ((db.save_code sid code lang uid snap now).1.get_code sid =
      some { sessionId := sid, code := code, language := sd.language,
             lastModified := sd.createdAt }) ∧
    (lang = sd.language →
      (db.save_code sid code lang uid snap now).1.get_code sid =
        some { sessionId := sid, code := code, language := lang,
               lastModified := sd.createdAt }) := by
  have hs : lookupKey (db.save_code sid code lang uid snap now).1.sessions sid =
      some { sd with code := code } := by
    rw [save_code_fst db sid code lang uid snap now sd h]
    exact lookupKey_setKey_self _ _ _
  constructor
  · simp [MockDatabase.get_code, hs]
  · intro he
    subst he
    simp [MockDatabase.get_code, hs]

/-- C6 witness: the round-trip theorem applied to the sample session
with the session's own language. -/
theorem save_get_code_roundtrip_witness :
    (sampleDb.save_code "s" "hey" "python" "u" "sn" 4).1.get_code "s" =
      some { sessionId := "s", code := "hey", language := "python",
             lastModified := 0 } :=
  (save_get_code_roundtrip sampleDb "s" "hey" "python" "u" "sn" 4 _ rfl).2 rfl

/-- C7: for a known session and limit ≥ 1, `get_history` returns the
most recent `limit` entries of the log, in original order (a suffix of
the chronological log), never more than `limit` of them; an unknown
session id yields `none`; and appending a history entry only extends
the underlying log, evicting nothing. -/
theorem get_history_spec (db : MockDatabase) (sid : String) (limit : Nat)
    (sd : SessionData) (h : lookupKey db.sessions sid = some sd)
    (hl : 1 ≤ limit) :
    (db.get_history sid limit =
      some (((lookupKey db.history sid).getD []).drop
        (((lookupKey db.history sid).getD []).length - limit))) ∧
    ((((lookupKey db.history sid).getD []).drop
        (((lookupKey db.history sid).getD []).length - limit)).length ≤ limit) ∧
    ((((lookupKey db.history sid).getD []).drop
        (((lookupKey db.history sid).getD []).length - limit)) <:+
      ((lookupKey db.history sid).getD [])) ∧
    (∀ sid₂, lookupKey db.sessions sid₂ = none →
      db.get_history sid₂ limit = none) ∧
    (∀ uid ct desc cs now,
      lookupKey (db.add_history_entry sid uid ct desc cs now).history sid =
        some (((lookupKey db.history sid).getD []) ++
          [{ timestamp := now, userId := uid, changeType := ct,
             description := desc, codeSnapshot := cs }])) := by
  refine ⟨get_history_eq db sid limit sd h hl, ?_, ?_, ?_, ?_⟩
  · rw [List.length_drop]
    omega
  · exact List.drop_suffix _ _
  · intro sid₂ h₂
    simp [MockDatabase.get_history, h₂]
  · intro uid ct desc cs now
    simp [MockDatabase.add_history_entry, h, lookupKey_setKey_self]

/-- C7 witness: two history entries on the sample session, read back
with limit 1: only the most recent entry is returned. -/
theorem get_history_spec_witness :
    histDb.get_history "s" 1 =
      some [{ timestamp := 2, userId := "u", changeType := "t2",
              description := "d2", codeSnapshot := none }] :=
  ((get_history_spec histDb "s" 1 _ rfl (by decide)).1).trans (by rfl)

/-- C8: a broadcast attempts a send to every live connection of the
session except the excluded one; every non-excluded connection whose
send succeeds receives the message even when other sends fail; only
attempted connections appear among the deliveries; and afterwards
exactly the connections whose sends failed are removed from the
tracked set, as a batch. -/
theorem broadcast_best_effort (g : GState) (sid : String) (msg : JVal)
    (exclude : Option ConnId) (fails : ConnId → Bool) (conns : List ConnId)
    (h : lookupKey g.active_connections sid = some conns) :
    (∀ c ∈ conns, (some c == exclude) = false → fails c = false →
        (c, msg) ∈ (g.broadcast sid msg exclude fails).2) ∧
    (∀ p ∈ (g.broadcast sid msg exclude fails).2,
        p.2 = msg ∧ p.1 ∈ conns ∧ (some p.1 == exclude) = false ∧
          fails p.1 = false) ∧
    (lookupKey (g.broadcast sid msg exclude fails).1.active_connections sid =
      some (conns.filter (fun x => (some x == exclude) || !(fails x)))) := by
  refine ⟨?_, ?_, broadcast_fst_lookup g sid msg exclude fails conns h⟩
  · intro c hc hce hcf
    rw [broadcast_delivered_eq g sid msg exclude fails conns h]
    refine List.mem_map.mpr ⟨c, ?_, rfl⟩
    refine List.mem_filter.mpr ⟨List.mem_filter.mpr ⟨hc, ?_⟩, ?_⟩
    · simp [hce]
    · simp [hcf]
  · intro p hp
    rw [broadcast_delivered_eq g sid msg exclude fails conns h] at hp
    obtain ⟨c, hcmem, hceq⟩ := List.mem_map.mp hp
    obtain ⟨hc1, hc2⟩ := List.mem_filter.mp hcmem
    obtain ⟨hc3, hc4⟩ := List.mem_filter.mp hc1
    subst hceq
    refine ⟨rfl, hc3, ?_, ?_⟩
    · simpa using hc4
    · simpa using hc2

/-- C8 witness: with connections 5 and 6 live and 6 excluded, a
broadcast where no send fails delivers the message to connection 5. -/
theorem broadcast_best_effort_witness :
    ((5 : ConnId), JVal.jnull) ∈
      (GState.broadcast ⟨MockDatabase.empty, [("s", [5, 6])]⟩ "s" .jnull
        (some 6) noFail).2 :=
  (broadcast_best_effort ⟨MockDatabase.empty, [("s", [5, 6])]⟩ "s" .jnull
    (some 6) noFail [5, 6] rfl).1 5 (by decide) rfl rfl

/-- C9 counterexample: with a single live connection whose send fails,
broadcast pruning removes the connection but retains the per-session
entry as an empty set, so presence tracking does keep an empty set. -/
theorem broadcast_prune_empty_entry_cex :
    (lookupKey (GState.broadcast ⟨MockDatabase.empty, [("s", [7])]⟩ "s"
        .jnull none allFail).1.active_connections "s" = some []) ∧
    (some ([] : List ConnId) ≠ (none : Option (List ConnId))) :=
  ⟨rfl, by decide⟩

/-- C9 (amended): the disconnect-path deregistration never leaves an
empty per-session entry behind (an emptied set is dropped), while
broadcast pruning removes failed connections but always retains the
per-session entry, possibly empty. -/
theorem presence_empty_entry (l : List (String × List ConnId)) (sid : String)
    (c : ConnId) :
    (∀ l', lookupKey (connDiscard l sid c) sid = some l' →
        l' ≠ [] ∧ c ∉ l') ∧
    (∀ (g : GState) (msg : JVal) (exclude : Option ConnId)
        (fails : ConnId → Bool) (conns : List ConnId),
      lookupKey g.active_connections sid = some conns →
      lookupKey (g.broadcast sid msg exclude fails).1.active_connections sid =
        some (conns.filter (fun x => (some x == exclude) || !(fails x)))) :=
  ⟨fun l' h => connDiscard_lookup l sid c l' h,
   fun g msg exclude fails conns h =>
     broadcast_fst_lookup g sid msg exclude fails conns h⟩

/-- C9 witness: discarding connection 3 from a set holding 3 and 4
leaves the nonempty entry [4], without 3. -/
theorem presence_empty_entry_witness :
    ([4] : List ConnId) ≠ [] ∧ (3 : ConnId) ∉ ([4] : List ConnId) :=
  (presence_empty_entry [("s", [3, 4])] "s" 3).1 [4] rfl

/-- C10: the `lastModified` reported by `get_code` always equals the
session's `createdAt`; any sequence of `save_code` calls changes the
code and logs, but leaves `createdAt`, and hence the reported
`lastModified`, unchanged. -/
theorem lastModified_always_createdAt (db : MockDatabase) (sid : String)
    (sd : SessionData) (h : lookupKey db.sessions sid = some sd) :
    ((db.get_code sid).map CodeInfo.lastModified = some sd.createdAt) ∧
    (∀ saves : List SaveArgs, ∃ sd₂,
      lookupKey (applySaves db sid saves).sessions sid = some sd₂ ∧
      sd₂.createdAt = sd.createdAt ∧
      ((applySaves db sid saves).get_code sid).map CodeInfo.lastModified =
        some sd.createdAt) := by
  constructor
  · simp [MockDatabase.get_code, h]
  · intro saves
    obtain ⟨sd₂, h2, h3⟩ := applySaves_lookup db sid saves sd h
    refine ⟨sd₂, h2, h3, ?_⟩
    rw [← h3]
    simp [MockDatabase.get_code, h2]

/-- One concrete `save_code` argument tuple. -/
def sampleSave : SaveArgs :=
  { code := "z", language := "python", userId := "u", snapId := "sn", now := 8 }

/-- C10 witness: a save on the sample session leaves the reported
`lastModified` at the creation time 0. -/
theorem lastModified_always_createdAt_witness :
    ((applySaves sampleDb "s" [sampleSave]).get_code "s").map
      CodeInfo.lastModified = some 0 := by
  obtain ⟨sd₂, h2, h3, h4⟩ :=
    (lastModified_always_createdAt sampleDb "s" _ rfl).2 [sampleSave]
  exact h4

/-- The broadcast message built by the code-update handler. -/
def cuBroadcastMsg (uid : String) (now : Nat) (payload : JVal) : JVal :=
  .jobj [("type", .jstr "code-update"), ("timestamp", .jnum now),
         ("userId", .jstr uid), ("data", payload)]

theorem ws_receive_not_join (g : GState) (sid : String) (c : ConnId)
    (cs : ConnState) (m : JVal) (f1 f2 snap : String) (now : Nat)
    (fails : ConnId → Bool) (hne : m.getStr "type" ≠ some "join") :
    ws_receive g sid c cs (some m) f1 f2 snap now fails =
      .next (handle_message g sid c m (pyOrStr cs.user_id f2) snap now fails).1
        cs
        (handle_message g sid c m (pyOrStr cs.user_id f2) snap now fails).2.1
        (handle_message g sid c m (pyOrStr cs.user_id f2) snap now
          fails).2.2 := by
  simp only [ws_receive]
  rw [if_neg hne]

theorem broadcast_mem_delivered (g : GState) (sid : String) (msg : JVal)
    (exclude : Option ConnId) (fails : ConnId → Bool) (conns : List ConnId)
    (h : lookupKey g.active_connections sid = some conns) (c₂ : ConnId)
    (hc : c₂ ∈ conns) (hce : (some c₂ == exclude) = false)
    (hcf : fails c₂ = false) :
    (c₂, msg) ∈ (g.broadcast sid msg exclude fails).2 := by
  rw [broadcast_delivered_eq g sid msg exclude fails conns h]
  refine List.mem_map.mpr ⟨c₂, ?_, rfl⟩
  refine List.mem_filter.mpr ⟨List.mem_filter.mpr ⟨hc, ?_⟩, ?_⟩
  · simp [hce]
  · simp [hcf]

theorem handle_code_update_eq (g : GState) (sid : String) (c : ConnId)
    (m d : JVal) (x uid snap : String) (now : Nat) (fails : ConnId → Bool)
    (sd : SessionData) (hty : m.getStr "type" = some "code-update")
    (hdata : m.getField "data" = some d) (hcode : d.getStr "code" = some x)
    (hs : lookupKey g.db.sessions sid = some sd) :
    handle_message g sid c m uid snap now fails =
      (((GState.mk (g.db.save_code sid x sd.language uid snap now).1
          g.active_connections).broadcast sid (cuBroadcastMsg uid now d)
          (some c) fails).1,
       [],
       ((GState.mk (g.db.save_code sid x sd.language uid snap now).1
          g.active_connections).broadcast sid (cuBroadcastMsg uid now d)
          (some c) fails).2) := by
  simp only [handle_message]
  rw [hty, if_neg (by decide), if_pos rfl, hdata]
  simp only [Option.getD_some, hcode, MockDatabase.get_session, hs,
    cuBroadcastMsg]

theorem handle_code_update_nocode_eq (g : GState) (sid : String) (c : ConnId)
    (m d : JVal) (uid snap : String) (now : Nat) (fails : ConnId → Bool)
    (hty : m.getStr "type" = some "code-update")
    (hdata : m.getField "data" = some d) (hcode : d.getStr "code" = none) :
    handle_message g sid c m uid snap now fails =
      ((g.broadcast sid (cuBroadcastMsg uid now d) (some c) fails).1,
       [],
       (g.broadcast sid (cuBroadcastMsg uid now d) (some c) fails).2) := by
  simp only [handle_message]
  rw [hty, if_neg (by decide), if_pos rfl, hdata]
  simp only [Option.getD_some, hcode, cuBroadcastMsg]

/-- C1 counterexample: connection 0 joined session "s" as "u1" and then
disconnects while connection 1 is still live; the disconnect handler
removes the participant but delivers no message at all, so the
remaining connection receives no user-left event. -/
theorem disconnect_no_user_left_cex :
    ((ws_disconnect joinedG "s" 0
        { user_id := some "u1", name := "Alice" }).2 = []) ∧
    (lookupKey joinedG.active_connections "s" = some [0, 1]) ∧
    (lookupKey (ws_disconnect joinedG "s" 0
        { user_id := some "u1", name := "Alice" }).1.active_connections "s" =
      some [1]) ∧
    (lookupKey (ws_disconnect joinedG "s" 0
        { user_id := some "u1", name := "Alice" }).1.db.participants "s" =
      some []) :=
  ⟨rfl, rfl, rfl, rfl⟩

/-- C1 (amended): when a joined connection disconnects, the connection
is removed from presence and the participant is removed from the
roster, but no message (in particular no user-left event) is sent to
any remaining connection; a connection that never joined causes no
database change at all. -/
theorem disconnect_cleanup_spec (g : GState) (sid : String) (c : ConnId)
    (cs : ConnState) (u : String) (roster : List Participant)
    (sd : SessionData) (hu : cs.user_id = some u) (hne : u ≠ "")
    (hs : lookupKey g.db.sessions sid = some sd)
    (hr : lookupKey g.db.participants sid = some roster) :
    ((ws_disconnect g sid c cs).2 = []) ∧
    (lookupKey (ws_disconnect g sid c cs).1.db.participants sid =
      some (roster.filter (fun p => p.userId != u))) ∧
    (∀ l', lookupKey (ws_disconnect g sid c cs).1.active_connections sid =
        some l' → c ∉ l') ∧
    (∀ cs₂ : ConnState, cs₂.user_id = none →
      (ws_disconnect g sid c cs₂).1.db = g.db) := by
  refine ⟨rfl, ?_, ?_, ?_⟩
  · simp only [ws_disconnect, ws_cleanup, hu]
    rw [if_pos (by simp [truthyId, hne])]
    simp only [Option.getD_some, MockDatabase.remove_participant, hs]
    rw [lookupKey_setKey_self]
    simp only [hr, Option.getD_some]
  · intro l' hl'
    exact (connDiscard_lookup g.active_connections sid c l' hl').2
  · intro cs₂ hcs
    simp [ws_disconnect, ws_cleanup, hcs, truthyId]

/-- C1 witness: the cleanup theorem applied at the joined sample state;
the never-joined clause shows connection 1 disconnecting changes no
database state. -/
theorem disconnect_cleanup_spec_witness :
    (ws_disconnect joinedG "s" 1 ConnState.init).1.db = joinedG.db :=
  (disconnect_cleanup_spec joinedG "s" 1
    { user_id := some "u1", name := "Alice" } "u1" _ _ rfl (by decide) rfl
    rfl).2.2.2 ConnState.init rfl

/-- C2 counterexample: an unparsable frame on connection 1 of the
sample two-connection state ends the receive loop in the closed state
with full disconnect cleanup; the presence set shrinks from [0, 1] to
[0], so the channel is torn down and presence is not unchanged. -/
theorem unparsable_teardown_cex :
    (ws_receive sampleG2 "s" 1 ConnState.init none "f1" "f2" "sn" 5 noFail =
      .closed (ws_cleanup sampleG2 "s" 1 none)) ∧
    (lookupKey sampleG2.active_connections "s" = some [0, 1]) ∧
    (lookupKey (ws_cleanup sampleG2 "s" 1 none).active_connections "s" =
      some [0]) :=
  ⟨rfl, rfl, rfl⟩

/-- C2 (amended): an inbound message that cannot be parsed terminates
the channel through the generic error branch: the loop ends in the
closed state after exactly the disconnect cleanup, nothing is
broadcast, the connection leaves the presence set, and a connection
that never joined causes no database change. -/
theorem unparsable_message_teardown (g : GState) (sid : String) (c : ConnId)
    (cs : ConnState) (f1 f2 snap : String) (now : Nat)
    (fails : ConnId → Bool) :
    (ws_receive g sid c cs none f1 f2 snap now fails =
      .closed (ws_cleanup g sid c cs.user_id)) ∧
    ((ws_receive g sid c cs none f1 f2 snap now fails).delivered = []) ∧
    (∀ l', lookupKey (ws_cleanup g sid c cs.user_id).active_connections sid =
        some l' → c ∉ l') ∧
    (cs.user_id = none → (ws_cleanup g sid c cs.user_id).db = g.db) := by
  refine ⟨rfl, rfl, ?_, ?_⟩
  · intro l' hl'
    exact (connDiscard_lookup g.active_connections sid c l' hl').2
  · intro hcs
    simp [ws_cleanup, hcs, truthyId]

/-- C2 witness: the teardown theorem applied to the sample state for
connection 0, whose locals never joined. -/
theorem unparsable_message_teardown_witness :
    (ws_cleanup sampleG2 "s" 0 none).db = sampleG2.db :=
  (unparsable_message_teardown sampleG2 "s" 0 ConnState.init "a" "b" "c" 9
    noFail).2.2.2 rfl

/-- C3 counterexample: in the create/connect/connect/join scenario the
second client's user-joined event carries participantCount 2 (the
connection count), not 1 as claimed. -/
theorem join_count_connections_cex :
    (joinStep.delivered = [(1, JVal.jobj
      [("type", .jstr "user-joined"), ("timestamp", .jnum 3),
       ("userId", .jstr "u1"),
       ("data", .jobj [("name", .jstr "Alice"),
                       ("participantCount", .jnum 2)])])]) ∧
    (JVal.jnum 2 ≠ JVal.jnum 1) := by
  refine ⟨rfl, ?_⟩
  intro h
  injection h with h2
  exact absurd h2 (by decide)

/-- C3 (amended): in the scenario the first client's welcome carries
language "python" and an empty participants list; after its join the
first client gets no self-notification while the second client receives
a user-joined event with userId "u1", name "Alice" and
participantCount 2 — the number of live connections, the roster itself
holding exactly the one new participant. -/
theorem join_scene_spec :
    (sampleWelcome.getStr "type" = some "welcome") ∧
    (((sampleWelcome.getField "data").getD (.jobj [])).getStr "language" =
      some "python") ∧
    (((sampleWelcome.getField "data").getD (.jobj [])).getField
      "participants" = some (.jarr [])) ∧
    (joinStep.selfMsgs = []) ∧
    (joinStep.delivered = [(1, JVal.jobj
      [("type", .jstr "user-joined"), ("timestamp", .jnum 3),
       ("userId", .jstr "u1"),
       ("data", .jobj [("name", .jstr "Alice"),
                       ("participantCount", .jnum 2)])])]) ∧
    (lookupKey joinedG.db.participants "s" = some
      [{ userId := "u1", name := "Alice", joinedAt := 3,
         cursorPosition := none }]) ∧
    ((lookupKey joinedG.db.sessions "s").map SessionData.activeParticipants =
      some 1) :=
  ⟨rfl, rfl, rfl, rfl, rfl, rfl, rfl⟩

/-- C5: a code-update whose payload carries a code field "x" persists
the code via save_code with the session's current language and the
acting user id (the joined id, or the fresh fallback when the
connection never joined): the session's code becomes x so a subsequent
read returns it, a snapshot and a "snapshot" history entry are
appended, and (with no send failing) every other live connection
receives the code-update event carrying the same payload; a payload
without a code field persists nothing but the event is still broadcast
to all other connections. -/
theorem code_update_spec :
    (∀ (g : GState) (sid : String) (c : ConnId) (cs : ConnState) (m d : JVal)
        (x f1 fresh snap : String) (now : Nat) (conns : List ConnId)
        (sd : SessionData),
      m.getStr "type" = some "code-update" →
      m.getField "data" = some d →
      d.getStr "code" = some x →
      lookupKey g.db.sessions sid = some sd →
      lookupKey g.active_connections sid = some conns →
      ((ws_receive g sid c cs (some m) f1 fresh snap now noFail).isNext =
        true) ∧
      ((ws_receive g sid c cs (some m) f1 fresh snap now noFail).locals =
        cs) ∧
      ((ws_receive g sid c cs (some m) f1 fresh snap now noFail).selfMsgs =
        []) ∧
      ((ws_receive g sid c cs (some m) f1 fresh snap now
          noFail).state.db.get_code sid =
        some { sessionId := sid, code := x, language := sd.language,
               lastModified := sd.createdAt }) ∧
      (lookupKey (ws_receive g sid c cs (some m) f1 fresh snap now
          noFail).state.db.code_snapshots sid =
        some (((lookupKey g.db.code_snapshots sid).getD []) ++
          [{ snapshotId := snap, code := x, language := sd.language,
             savedAt := now, userId := pyOrStr cs.user_id fresh }])) ∧
      (lookupKey (ws_receive g sid c cs (some m) f1 fresh snap now
          noFail).state.db.history sid =
        some (((lookupKey g.db.history sid).getD []) ++
          [{ timestamp := now, userId := pyOrStr cs.user_id fresh,
             changeType := "snapshot", description := "Code snapshot saved",
             codeSnapshot := some x }])) ∧
      (∀ c₂ ∈ conns, (c₂ == c) = false →
        (c₂, cuBroadcastMsg (pyOrStr cs.user_id fresh) now d) ∈
          (ws_receive g sid c cs (some m) f1 fresh snap now
            noFail).delivered)) ∧
    (∀ (g : GState) (sid : String) (c : ConnId) (cs : ConnState) (m d : JVal)
        (f1 fresh snap : String) (now : Nat) (conns : List ConnId),
      m.getStr "type" = some "code-update" →
      m.getField "data" = some d →
      d.getStr "code" = none →
      lookupKey g.active_connections sid = some conns →
      ((ws_receive g sid c cs (some m) f1 fresh snap now noFail).state.db =
        g.db) ∧
      ((ws_receive g sid c cs (some m) f1 fresh snap now noFail).selfMsgs =
        []) ∧
      (∀ c₂ ∈ conns, (c₂ == c) = false →
        (c₂, cuBroadcastMsg (pyOrStr cs.user_id fresh) now d) ∈
          (ws_receive g sid c cs (some m) f1 fresh snap now
            noFail).delivered)) := by
  constructor
  · intro g sid c cs m d x f1 fresh snap now conns sd hty hdata hcode hs hconns
    have hne : m.getStr "type" ≠ some "join" := by
      rw [hty]
      decide
    rw [ws_receive_not_join g sid c cs m f1 fresh snap now noFail hne]
    rw [handle_code_update_eq g sid c m d x (pyOrStr cs.user_id fresh) snap
      now noFail sd hty hdata hcode hs]
    have hsave := save_code_fst g.db sid x sd.language
      (pyOrStr cs.user_id fresh) snap now sd hs
    have hdb : ((GState.mk
        (g.db.save_code sid x sd.language (pyOrStr cs.user_id fresh) snap
          now).1 g.active_connections).broadcast sid
        (cuBroadcastMsg (pyOrStr cs.user_id fresh) now d) (some c)
        noFail).1.db =
        (g.db.save_code sid x sd.language (pyOrStr cs.user_id fresh) snap
          now).1 :=
      broadcast_db _ _ _ _ _
    refine ⟨rfl, rfl, rfl, ?_, ?_, ?_, ?_⟩
    · simp only [ReceiveResult.state]
      rw [hdb, hsave]
      have hlook : lookupKey (setKey g.db.sessions sid
          { sd with code := x }) sid = some { sd with code := x } :=
        lookupKey_setKey_self _ _ _
      simp [MockDatabase.get_code, hlook]
    · simp only [ReceiveResult.state]
      rw [hdb, hsave]
      exact lookupKey_setKey_self _ _ _
    · simp only [ReceiveResult.state]
      rw [hdb, hsave]
      exact lookupKey_setKey_self _ _ _
    · intro c₂ hc₂ hcne
      simp only [ReceiveResult.delivered]
      exact broadcast_mem_delivered
        (GState.mk (g.db.save_code sid x sd.language
          (pyOrStr cs.user_id fresh) snap now).1 g.active_connections) sid _
        (some c) noFail conns hconns c₂ hc₂ hcne rfl
  · intro g sid c cs m d f1 fresh snap now conns hty hdata hcode hconns
    have hne : m.getStr "type" ≠ some "join" := by
      rw [hty]
      decide
    rw [ws_receive_not_join g sid c cs m f1 fresh snap now noFail hne]
    rw [handle_code_update_nocode_eq g sid c m d (pyOrStr cs.user_id fresh)
      snap now noFail hty hdata hcode]
    refine ⟨?_, rfl, ?_⟩
    · simp only [ReceiveResult.state]
      exact broadcast_db _ _ _ _ _
    · intro c₂ hc₂ hcne
      simp only [ReceiveResult.delivered]
      exact broadcast_mem_delivered _ sid _ (some c) noFail conns hconns c₂
        hc₂ hcne rfl

/-- The concrete code-update message of the C5 witness. -/
def cuMsgSample : JVal := .jobj
  [("type", .jstr "code-update"), ("data", .jobj [("code", .jstr "X")])]

/-- C5 witness: the code-update theorem applied to the sample
two-connection state; the subsequent read returns the pushed code with
the session's language. -/
theorem code_update_spec_witness :
    (ws_receive sampleG2 "s" 0 ConnState.init (some cuMsgSample) "f1"
      "fresh9" "snapA" 7 noFail).state.db.get_code "s" =
      some { sessionId := "s", code := "X", language := "python",
             lastModified := 0 } :=
  (code_update_spec.1 sampleG2 "s" 0 ConnState.init cuMsgSample
    (.jobj [("code", .jstr "X")]) "X" "f1" "fresh9" "snapA" 7 [0, 1] _
    rfl rfl rfl rfl rfl).2.2.2.1

end CollabSpec
